import Mathlib

/-!
Shallow embedding of lafolle/rhi (src/src/main.rs), an HTTP load generator.

The program parses command-line flags into an `Options` value (`get_options`,
main.rs lines 168-248), builds one HTTP request per admission from the parsed
matches (`Options::get_request`, lines 79-127), and runs a tokio interval loop
(`main`, lines 139-166) that, once per second, spawns `creq` request futures.

External library behaviour (hyper, clap, futures) is modelled only as far as
the repository code observes it; every function of the repository itself is
translated clause by clause.
-/

namespace Rhi

/-- Models hyper Duration values as built by Duration::new(secs, nanos). -/
structure Duration where
  secs : Nat
  nanos : Nat
deriving DecidableEq, Repr

/-- Models clap ArgMatches as observed by the program: value_of for each flag
the code reads. A field is none when the flag is absent and clap supplies no
default, and some v when value_of returns v (clap inserts the declared
default_value for n, c, q, method and t before get_options reads them). -/
structure ArgMatches where
  n : Option String := none
  c : Option String := none
  q : Option String := none
  t : Option String := none
  method : Option String := none
  accept_header : Option String := none
  a : Option String := none
  d : Option String := none
  url : Option String := none
deriving DecidableEq, Repr

/-- Default number of requests, main.rs line 55. -/
def DEFAULT_NREQ : Nat := 100

/-- Default concurrency, main.rs line 56. -/
def DEFAULT_CREQ : Nat := 10

/-- Default rate, main.rs line 57. -/
def DEFAULT_RPS : Nat := 10

/-- Error type of str::parse::<u32>, core::num::ParseIntError. -/
inductive ParseIntError where
  | empty
  | invalidDigit
  | overflow
deriving DecidableEq, Repr

/-- Models Rust str::parse::<u32>: an optional leading plus sign, then one or
more ASCII digits, value at most u32::MAX; anything else is an error. -/
def parseU32 (s : String) : Except ParseIntError Nat :=
  let chars :=
    match s.toList with
    | '+' :: rest => rest
    | cs => cs
  if chars.isEmpty then .error .empty
  else if chars.all Char.isDigit then
    let v := chars.foldl (fun acc c => acc * 10 + (c.toNat - 48)) 0
    if v < 2 ^ 32 then .ok v else .error .overflow
  else .error .invalidDigit

/-- The Options struct, main.rs lines 62-75: request count, concurrency,
rate, the per-request timeout, and the retained ArgMatches. -/
structure Options where
  nreq : Nat
  creq : Nat
  rps : Nat
  timeout : Duration
  cliMatches : ArgMatches
deriving DecidableEq, Repr

/-- Embeds get_options, main.rs lines 226-247: parse n, c and q as u32
(falling back to the DEFAULT_* constants when value_of returns None), then
build Options with the timeout hardcoded to Duration::new(10, 0). The t flag
is declared with default "20" (line 203) but is never read here, and no
relation between nreq and creq is checked. -/
def getOptions (ms : ArgMatches) : Except ParseIntError Options := do
  let nreq ← match ms.n with
    | some t => parseU32 t
    | none => pure DEFAULT_NREQ
  let creq ← match ms.c with
    | some t => parseU32 t
    | none => pure DEFAULT_CREQ
  let rps ← match ms.q with
    | some t => parseU32 t
    | none => pure DEFAULT_RPS
  pure { nreq := nreq, creq := creq, rps := rps,
         timeout := { secs := 10, nanos := 0 }, cliMatches := ms }

/-- HTTP methods the program can select, main.rs lines 86-94. -/
inductive Method where
  | get
  | post
  | put
  | delete
  | head
  | options
deriving DecidableEq, Repr

/-- Models hyper Uri as the parsed absolute URI string. -/
structure Uri where
  raw : String
deriving DecidableEq, Repr

/-- Models the external hyper Uri::from_str parser only as far as the program
observes it: it rejects the empty string and otherwise yields a Uri; none
models a parse failure (which get_request unwraps into a panic). -/
def Uri.fromStr (s : String) : Option Uri :=
  if s.isEmpty then none else some { raw := s }

/-- Models a hyper Accept-header quality item as its raw string. -/
structure QualityItem where
  raw : String
deriving DecidableEq, Repr

/-- Models the external hyper QualityItem::from_str parser only as far as the
program observes it: it rejects the empty string, otherwise yields the item;
none models a parse failure (which get_request unwraps into a panic). -/
def QualityItem.fromStr (s : String) : Option QualityItem :=
  if s.isEmpty then none else some { raw := s }

/-- Basic credentials, hyper header::Basic as filled at main.rs lines 110-115. -/
structure Basic where
  username : String
  password : Option String
deriving DecidableEq, Repr

/-- The request value get_request builds: method and URI from Request::new,
plus the headers and body the program may set on it. -/
structure Request where
  method : Method
  uri : Uri
  accept : Option QualityItem
  auth : Option Basic
  contentLength : Option Nat
  body : Option String
deriving DecidableEq, Repr

/-- Request::new(method, uri), main.rs line 96: no headers, no body. -/
def Request.new (method : Method) (uri : Uri) : Request :=
  { method := method, uri := uri, accept := none, auth := none,
    contentLength := none, body := none }

/-- Method selection, main.rs lines 86-94: anything but the six literal
strings falls through to GET. -/
def methodOf : Option String → Method
  | some "GET" => .get
  | some "POST" => .post
  | some "PUT" => .put
  | some "DELETE" => .delete
  | some "HEAD" => .head
  | some "OPTIONS" => .options
  | _ => .get

/-- Rust str::split on the colon character, on the character list of the
string: splits at every colon, keeping empty segments, always yielding at
least one segment. -/
def splitColonAux : List Char → List Char → List (List Char)
  | [], acc => [acc.reverse]
  | ch :: rest, acc =>
    if ch = ':' then acc.reverse :: splitColonAux rest []
    else splitColonAux rest (ch :: acc)

/-- The Vec<&str> collected at main.rs line 106 from value.split(':'). -/
def splitColon (s : String) : List (List Char) :=
  splitColonAux s.toList []

/-- Number of colon characters in a string. -/
def countColon (s : String) : Nat :=
  s.toList.count ':'

/-- Accept-header block of get_request, main.rs lines 99-102: when the flag
is present, parse it as a QualityItem (unwrap: parse failure panics, modelled
as none) and set the Accept header; otherwise leave the request unchanged. -/
def withAccept (req : Request) : Option String → Option Request
  | none => some req
  | some v =>
    match QualityItem.fromStr v with
    | some qi => some { req with accept := some qi }
    | none => none

/-- Basic-authorization block of get_request, main.rs lines 105-116: when the
a flag is present, split its value on the colon, assert exactly two parts
(assertion failure panics, modelled as none), and set the credentials. -/
def withAuth (req : Request) : Option String → Option Request
  | none => some req
  | some v =>
    match splitColon v with
    | [username, password] =>
      some { req with
             auth := some { username := String.mk username,
                            password := some (String.mk password) } }
    | _ => none

/-- Body block of get_request, main.rs lines 119-124: when the d flag is
present, set the body and a Content-Length header equal to the body byte
length (String::len counts bytes); otherwise leave the request unchanged. -/
def withBody (req : Request) : Option String → Request
  | none => req
  | some body =>
    { req with body := some body, contentLength := some body.utf8ByteSize }

/-- Embeds Options::get_request, main.rs lines 79-127: require the url
argument (missing url panics), parse it as a Uri (unwrap), select the
method, build the request, then apply the Accept, authorization and body
blocks in source order. Each bind chains a step that can panic; a none
result models a panic. -/
def Options.get_request (o : Options) : Option Request :=
  (o.cliMatches.url).bind fun uriStr =>
    (Uri.fromStr uriStr).bind fun uri =>
      (withAccept (Request.new (methodOf o.cliMatches.method) uri)
          o.cliMatches.accept_header).bind fun req1 =>
        (withAuth req1 o.cliMatches.a).map fun req2 =>
          withBody req2 o.cliMatches.d

/-- The while loop inside one interval tick, main.rs lines 151-160: starting
from counter c, spawn one request future per iteration while c < creq,
returning how many futures this tick spawns. The loop bound is creq; the rps
field is not read anywhere in main. -/
def tickLoop (creq c : Nat) : Nat :=
  if c < creq then 1 + tickLoop creq (c + 1) else 0
termination_by creq - c
decreasing_by omega

/-- Number of request futures one tick of the interval loop spawns,
main.rs lines 148-164: the loop runs with c initialized to 0. -/
def tickBatch (o : Options) : Nat :=
  tickLoop o.creq 0

/-- Cumulative number of requests spawned after t ticks of the interval
stream, main.rs lines 147-165: the Interval fires every second, forever, and
every tick runs the same while loop; nothing in the loop consults nreq, a
completion count, or an in-flight count. -/
def issuedUpTo (o : Options) : Nat → Nat
  | 0 => 0
  | t + 1 => issuedUpTo o t + tickBatch o

/-- Environment model: completedBy t is how many of the spawned request
futures have finished by tick t. The network decides it; the program neither
records nor consults it. A schedule is valid when it is monotone and never
exceeds what has been spawned. -/
def ValidSchedule (o : Options) (completedBy : Nat → Nat) : Prop :=
  (∀ s t, s ≤ t → completedBy s ≤ completedBy t) ∧
  ∀ t, completedBy t ≤ issuedUpTo o t

/-- The schedule in which no request has completed yet (all executions still
awaiting the server). -/
def zeroSchedule : Nat → Nat := fun _ => 0

/-- Requests in flight at tick t: spawned minus completed. -/
def inFlightCount (o : Options) (completedBy : Nat → Nat) (t : Nat) : Nat :=
  issuedUpTo o t - completedBy t

/-- Transport-level failures a hyper client future can resolve with. -/
inductive HyperError where
  | connectionRefused
  | connectionReset
  | dnsFailure
  | protocolError
deriving DecidableEq, Repr

/-- A full HTTP response: status plus concatenated body. -/
structure Response where
  status : Nat
  body : String
deriving DecidableEq, Repr

/-- The and_then stage of the spawned future, main.rs lines 155-158: on a
response, print the status and drain the body via concat2; a client error
skips this stage and flows through unchanged. -/
def andThenStage (exchange : Except HyperError Response) :
    Except HyperError String :=
  match exchange with
  | .ok res => .ok res.body
  | .error e => .error e

/-- The then stage, main.rs line 158: then with closure ignoring its argument
and returning Ok(()) maps every outcome, success or failure, to Ok(()). -/
def thenStage (r : Except HyperError String) : Except Unit Unit :=
  .ok ()

/-- Resolution of one spawned request future, main.rs lines 155-159, as a
function of the exchange outcome and of the seconds the exchange took. The
elapsed time and o.timeout are parameters only to record that the code never
reads them: no deadline is attached to the future anywhere in main, and
Options.timeout is never read after being set. -/
def spawnedResult (o : Options) (exchange : Except HyperError Response)
    (elapsedSecs : Nat) : Except Unit Unit :=
  thenStage (andThenStage exchange)

/-! Concrete command lines used to exercise the embedding. Each ArgMatches
value reflects what clap get_matches produces: n, c, q, method and t carry
their declared default_value when the flag is not on the command line. -/

/-- Command line: rhi -n 5 -c 2 http://localhost (q, method, t defaulted). -/
def mC1 : ArgMatches :=
  { n := some "5", c := some "2", q := some "1", t := some "20",
    method := some "GET", url := some "http://localhost" }

/-- Options that get_options builds from mC1. -/
def optC1 : Options :=
  { nreq := 5, creq := 2, rps := 1,
    timeout := { secs := 10, nanos := 0 }, cliMatches := mC1 }

/-- Command line: rhi -n 100 -c 10 http://localhost (q, method, t defaulted). -/
def mC2 : ArgMatches :=
  { n := some "100", c := some "10", q := some "1", t := some "20",
    method := some "GET", url := some "http://localhost" }

/-- Options that get_options builds from mC2. -/
def optC2 : Options :=
  { nreq := 100, creq := 10, rps := 1,
    timeout := { secs := 10, nanos := 0 }, cliMatches := mC2 }

/-- Command line: rhi http://localhost with every flag left at its declared
default: n 200, c 50, q 1, t 20. -/
def mC3 : ArgMatches :=
  { n := some "200", c := some "50", q := some "1", t := some "20",
    method := some "GET", url := some "http://localhost" }

/-- Options that get_options builds from mC3. -/
def optC3 : Options :=
  { nreq := 200, creq := 50, rps := 1,
    timeout := { secs := 10, nanos := 0 }, cliMatches := mC3 }

/-- Command line: rhi -n 5 -c 10 http://localhost, the Scenario D
configuration with total_requests smaller than concurrency. -/
def mC4 : ArgMatches :=
  { n := some "5", c := some "10", q := some "1", t := some "20",
    method := some "GET", url := some "http://localhost" }

/-- Options that get_options builds from mC4. -/
def optC4 : Options :=
  { nreq := 5, creq := 10, rps := 1,
    timeout := { secs := 10, nanos := 0 }, cliMatches := mC4 }

/-- Command line: rhi -n 4 -c 3 http://localhost. -/
def mC5 : ArgMatches :=
  { n := some "4", c := some "3", q := some "1", t := some "20",
    method := some "GET", url := some "http://localhost" }

/-- Options that get_options builds from mC5. -/
def optC5 : Options :=
  { nreq := 4, creq := 3, rps := 1,
    timeout := { secs := 10, nanos := 0 }, cliMatches := mC5 }

/-- Command line: rhi -t 20 http://localhost (all counts defaulted). -/
def mC6 : ArgMatches :=
  { n := some "200", c := some "50", q := some "1", t := some "20",
    method := some "GET", url := some "http://slow.example" }

/-- Options that get_options builds from mC6. -/
def optC6 : Options :=
  { nreq := 200, creq := 50, rps := 1,
    timeout := { secs := 10, nanos := 0 }, cliMatches := mC6 }

/-- Options for exercising the spawned future on a failing exchange. -/
def optC7 : Options :=
  { nreq := 200, creq := 50, rps := 1,
    timeout := { secs := 10, nanos := 0 },
    cliMatches := { n := some "200", c := some "50", q := some "1",
                    t := some "20", method := some "GET",
                    url := some "http://localhost" } }

/-- Options whose command line carries a request body: rhi -d hello
http://localhost. -/
def oC8 : Options :=
  { nreq := 200, creq := 50, rps := 1,
    timeout := { secs := 10, nanos := 0 },
    cliMatches := { n := some "200", c := some "50", q := some "1",
                    t := some "20", method := some "GET",
                    d := some "hello", url := some "http://localhost" } }

/-- The request get_request builds from oC8: body hello, Content-Length 5. -/
def rC8 : Request :=
  { method := .get, uri := { raw := "http://localhost" }, accept := none,
    auth := none, contentLength := some 5, body := some "hello" }

/-- Options whose basic-auth value has no colon: rhi -a userpass
http://localhost. -/
def oC9 : Options :=
  { nreq := 200, creq := 50, rps := 1,
    timeout := { secs := 10, nanos := 0 },
    cliMatches := { n := some "200", c := some "50", q := some "1",
                    t := some "20", method := some "GET",
                    a := some "userpass", url := some "http://localhost" } }

/-- Command line: rhi -t 20 http://localhost, with the t flag at its
documented default of 20 seconds. -/
def mC10 : ArgMatches :=
  { n := some "200", c := some "50", q := some "1", t := some "20",
    method := some "GET", url := some "http://localhost" }

/-- Options that get_options builds from mC10: the timeout field is 10
seconds even though the t flag says 20. -/
def optC10 : Options :=
  { nreq := 200, creq := 50, rps := 1,
    timeout := { secs := 10, nanos := 0 }, cliMatches := mC10 }

/-! Helper lemmas about the embedded definitions. -/

/-- The while loop of one tick spawns exactly creq minus c futures,
main.rs lines 151-160. -/
theorem tickLoop_eq (creq c : Nat) : tickLoop creq c = creq - c := by
  unfold tickLoop
  split
  · rw [tickLoop_eq creq (c + 1)]; omega
  · omega
termination_by creq - c
decreasing_by omega

/-- One tick spawns exactly creq request futures. -/
theorem tickBatch_eq (o : Options) : tickBatch o = o.creq := by
  unfold tickBatch
  rw [tickLoop_eq]
  omega

/-- After t ticks the loop has spawned creq times t request futures. -/
theorem issuedUpTo_eq (o : Options) (t : Nat) :
    issuedUpTo o t = o.creq * t := by
  induction t with
  | zero => rfl
  | succ t ih =>
    unfold issuedUpTo
    rw [ih, tickBatch_eq]
    ring

/-- Splitting on colons yields one more segment than there are colons. -/
theorem splitColonAux_length (l acc : List Char) :
    (splitColonAux l acc).length = l.count ':' + 1 := by
  induction l generalizing acc with
  | nil => simp [splitColonAux]
  | cons ch rest ih =>
    by_cases h : ch = ':'
    · simp [splitColonAux, h, ih, List.count_cons]
    · simp [splitColonAux, h, ih, List.count_cons]

/-- The collected Vec at main.rs line 106 has colon-count plus one entries. -/
theorem splitColon_length (s : String) :
    (splitColon s).length = countColon s + 1 := by
  unfold splitColon countColon
  exact splitColonAux_length s.toList []

/-- When the basic-auth value does not contain exactly one colon, the
assertion at main.rs line 107 fails and get_request panics. -/
theorem withAuth_assert_fails (req : Request) (s : String)
    (hc : countColon s ≠ 1) : withAuth req (some s) = none := by
  have hlen := splitColon_length s
  simp only [withAuth]
  cases hsp : splitColon s with
  | nil => rfl
  | cons x xs =>
    cases xs with
    | nil => rfl
    | cons y ys =>
      cases ys with
      | nil =>
        exfalso
        rw [hsp] at hlen
        simp at hlen
        omega
      | cons z zs => rfl

/-- The Accept block never touches the Content-Length header or the body. -/
theorem withAccept_fields (req : Request) (v : Option String) (req2 : Request)
    (h : withAccept req v = some req2) :
    req2.contentLength = req.contentLength ∧ req2.body = req.body := by
  cases v with
  | none =>
    simp only [withAccept] at h
    injection h with h
    subst h
    exact ⟨rfl, rfl⟩
  | some s =>
    simp only [withAccept] at h
    cases hq : QualityItem.fromStr s with
    | none => rw [hq] at h; exact Option.noConfusion h
    | some qi =>
      rw [hq] at h
      injection h with h
      subst h
      exact ⟨rfl, rfl⟩

/-- The authorization block never touches the Content-Length header or the
body. -/
theorem withAuth_fields (req : Request) (v : Option String) (req2 : Request)
    (h : withAuth req v = some req2) :
    req2.contentLength = req.contentLength ∧ req2.body = req.body := by
  cases v with
  | none =>
    simp only [withAuth] at h
    injection h with h
    subst h
    exact ⟨rfl, rfl⟩
  | some s =>
    simp only [withAuth] at h
    cases hsp : splitColon s with
    | nil => rw [hsp] at h; exact Option.noConfusion h
    | cons x xs =>
      cases xs with
      | nil => rw [hsp] at h; exact Option.noConfusion h
      | cons y ys =>
        cases ys with
        | nil =>
          rw [hsp] at h
          injection h with h
          subst h
          exact ⟨rfl, rfl⟩
        | cons z zs => rw [hsp] at h; exact Option.noConfusion h

/-! Claim theorems. -/

/-- Claim C1: the spec says a run with total_requests N stops exactly when
completed_count reaches N, the Dispatcher then signalling completion and
stopping the clock. The code tracks no completions at all: for the command
line rhi -n 5 -c 2, get_options accepts nreq 5, yet the interval loop admits
2 further requests on every one-second tick, so the cumulative admission
count is 2 t after t ticks, strictly grows forever past the 5 configured
requests, and no terminal state is ever reached. -/
theorem C1_run_never_reaches_terminal_state :
    getOptions mC1 = Except.ok optC1 ∧ optC1.nreq = 5 ∧
    (∀ t, issuedUpTo optC1 t = 2 * t) ∧
    (∀ t, issuedUpTo optC1 t < issuedUpTo optC1 (t + 1)) := by
  refine ⟨rfl, rfl, fun t => ?_, fun t => ?_⟩
  · rw [issuedUpTo_eq]
    rfl
  · rw [issuedUpTo_eq, issuedUpTo_eq]
    show 2 * t < 2 * (t + 1)
    omega

/-- Claim C2: the spec bounds in-flight requests by the concurrency level at
every instant. The code neither counts in-flight requests nor waits for
completions: with creq 10 and a (valid) environment in which no request has
finished after two ticks, 20 requests are in flight, twice the configured
concurrency. -/
theorem C2_in_flight_exceeds_concurrency :
    getOptions mC2 = Except.ok optC2 ∧ optC2.creq = 10 ∧
    ValidSchedule optC2 zeroSchedule ∧
    inFlightCount optC2 zeroSchedule 2 = 20 ∧
    optC2.creq < inFlightCount optC2 zeroSchedule 2 := by
  have h2 : inFlightCount optC2 zeroSchedule 2 = 20 := by
    unfold inFlightCount zeroSchedule
    rw [issuedUpTo_eq]
    rfl
  refine ⟨rfl, rfl, ⟨fun s t hst => Nat.le_refl 0, fun t => Nat.zero_le _⟩,
    h2, ?_⟩
  rw [h2]
  show (10 : Nat) < 20
  omega

/-- Claim C3: the spec says the per-tick admission batch is governed by the
rate parameter. In the code the while-loop bound is creq, the concurrency
flag: with the declared defaults (rps 1, creq 50) a single tick admits 50
requests into one one-second window, 50 times the configured rate, and the
batch size is the same whatever value the rps field holds. -/
theorem C3_batch_governed_by_concurrency_not_rate :
    getOptions mC3 = Except.ok optC3 ∧ optC3.rps = 1 ∧
    tickBatch optC3 = 50 ∧ optC3.rps < tickBatch optC3 ∧
    (∀ r, tickBatch { optC3 with rps := r } = optC3.creq) := by
  have hb : tickBatch optC3 = 50 := by rw [tickBatch_eq]; rfl
  refine ⟨rfl, rfl, hb, ?_, fun r => by rw [tickBatch_eq]⟩
  rw [hb]
  show (1 : Nat) < 50
  omega

/-- Claim C4: the spec requires a pre-run ConfigurationError whenever
total_requests is smaller than concurrency (Scenario D: 5 and 10). The code
performs no such check: get_options returns Ok on the command line
rhi -n 5 -c 10 url, and main unwraps it and starts the run. -/
theorem C4_no_configuration_error_for_small_total :
    optC4.nreq < optC4.creq ∧ getOptions mC4 = Except.ok optC4 :=
  ⟨by decide, rfl⟩

/-- Claim C5: the spec says a run of N requests assigns sequence numbers
exactly zero through N minus one, one admission each. The code assigns no
sequence numbers and admits creq requests per tick without end: with nreq 4
and creq 3, two ticks have already admitted 6 requests, so the admitted set
cannot be in bijection with the 4 configured sequence numbers, and every
further tick admits 3 more. -/
theorem C5_admissions_exceed_total_requests :
    getOptions mC5 = Except.ok optC5 ∧ optC5.nreq = 4 ∧
    issuedUpTo optC5 2 = 6 ∧ issuedUpTo optC5 2 ≠ optC5.nreq ∧
    (∀ t, issuedUpTo optC5 (t + 1) = issuedUpTo optC5 t + 3) := by
  have h6 : issuedUpTo optC5 2 = 6 := by rw [issuedUpTo_eq]; rfl
  refine ⟨rfl, rfl, h6, ?_, fun t => ?_⟩
  · rw [h6]
    show (6 : Nat) ≠ 4
    omega
  · show issuedUpTo optC5 t + tickBatch optC5 = issuedUpTo optC5 t + 3
    rw [tickBatch_eq]
    rfl

/-- Claim C6: the spec demands that an attempt with a nonzero per-request
timeout resolve to a Failure record with error kind Timeout when no full
response arrives in time. The code stores timeout ten seconds in Options but
never reads it, attaches no deadline to the spawned future, and produces no
failure record: an exchange that takes 100 seconds, far past the 10-second
timeout, still resolves to the bare Ok unit, and so does every other
exchange outcome at every elapsed time. -/
theorem C6_timeout_never_enforced :
    getOptions mC6 = Except.ok optC6 ∧
    optC6.timeout = { secs := 10, nanos := 0 } ∧ optC6.timeout.secs < 100 ∧
    spawnedResult optC6 (Except.ok { status := 200, body := "late" }) 100 =
      Except.ok () ∧
    (∀ exchange elapsed,
      spawnedResult optC6 exchange elapsed = Except.ok ()) :=
  ⟨rfl, rfl, by decide, rfl, fun exchange elapsed => rfl⟩

/-- Claim C7 counterexample: the claim says every Request Executor
invocation resolves to exactly one CompletionRecord whose data records the
outcome. In the code a failed exchange and a successful one resolve to the
selfsame bare Ok unit: the then-combinator at main.rs line 158 discards the
outcome, so no completion data is surfaced at all. -/
theorem C7_failure_indistinguishable_from_success :
    spawnedResult optC7 (Except.error HyperError.connectionRefused) 3 =
      spawnedResult optC7 (Except.ok { status := 200, body := "ok" }) 3 :=
  rfl

/-- Claim C7 as amended: every spawned request future resolves to Ok unit,
whatever the exchange outcome and however long it took. Failures (timeout,
connection, protocol) are therefore absorbed at the executor boundary and
never propagate into the dispatching loop nor abort the run — but no
CompletionRecord is produced either: outcome data is discarded. -/
theorem C7_executor_absorbs_all_outcomes (o : Options)
    (exchange : Except HyperError Response) (elapsedSecs : Nat) :
    spawnedResult o exchange elapsedSecs = Except.ok () :=
  rfl

/-- Claim C8: whenever get_request returns a request, its Content-Length
header is exactly the byte length of the body when the d flag is present,
and is unset when the d flag is absent (no other step of get_request touches
it); the body field likewise mirrors the flag. -/
theorem C8_content_length_matches_body (o : Options) (req : Request)
    (h : o.get_request = some req) :
    req.contentLength = o.cliMatches.d.map String.utf8ByteSize ∧
    req.body = o.cliMatches.d := by
  unfold Options.get_request at h
  rcases Option.bind_eq_some.mp h with ⟨uriStr, hu, h⟩
  rcases Option.bind_eq_some.mp h with ⟨uri, hp, h⟩
  rcases Option.bind_eq_some.mp h with ⟨req1, hacc, h⟩
  rcases Option.map_eq_some'.mp h with ⟨req2, hauth, h⟩
  subst h
  have h1 := withAccept_fields _ _ _ hacc
  have h2 := withAuth_fields _ _ _ hauth
  cases hd : o.cliMatches.d with
  | none =>
    refine ⟨?_, ?_⟩
    · show req2.contentLength = none
      rw [h2.1, h1.1]
      rfl
    · show req2.body = none
      rw [h2.2, h1.2]
      rfl
  | some b => exact ⟨rfl, rfl⟩

/-- Claim C8 witness: on the command line rhi -d hello url the built request
carries Content-Length 5 and body hello. -/
theorem C8_content_length_matches_body_witness :
    oC8.get_request = some rC8 ∧
    (rC8.contentLength = oC8.cliMatches.d.map String.utf8ByteSize ∧
     rC8.body = oC8.cliMatches.d) :=
  ⟨rfl, C8_content_length_matches_body oC8 rC8 rfl⟩

/-- Claim C9: when the a flag is supplied with a value that does not contain
exactly one colon, the assert_eq at main.rs line 107 fails, so get_request
panics instead of returning a request — modelled as a none result. -/
theorem C9_basic_auth_colon_assert (o : Options) (s : String)
    (ha : o.cliMatches.a = some s) (hc : countColon s ≠ 1) :
    o.get_request = none := by
  unfold Options.get_request
  cases hu : o.cliMatches.url with
  | none => rfl
  | some uriStr =>
    rw [Option.some_bind]
    cases hp : Uri.fromStr uriStr with
    | none => rfl
    | some uri =>
      rw [Option.some_bind]
      cases hacc : withAccept (Request.new (methodOf o.cliMatches.method) uri)
          o.cliMatches.accept_header with
      | none => rfl
      | some req1 =>
        rw [Option.some_bind, ha, withAuth_assert_fails req1 s hc]
        rfl

/-- Claim C9 witness: the bare username value userpass contains no colon, so
request construction panics. -/
theorem C9_basic_auth_colon_assert_witness :
    oC9.cliMatches.a = some "userpass" ∧ countColon "userpass" ≠ 1 ∧
    oC9.get_request = none :=
  ⟨rfl, by decide, C9_basic_auth_colon_assert oC9 "userpass" rfl (by decide)⟩

/-- Claim C10: whatever the command line, when get_options succeeds the
timeout field of the returned Options is Duration::new(10, 0): the t flag,
though declared with default 20 and documented as the per-request timeout,
is never read into it. -/
theorem C10_timeout_always_ten_seconds (ms : ArgMatches) (o : Options)
    (h : getOptions ms = Except.ok o) :
    o.timeout = { secs := 10, nanos := 0 } := by
  unfold getOptions at h
  simp only [bind, Except.bind, pure, Except.pure] at h
  repeat' split at h
  all_goals
    first
      | exact Except.noConfusion h
      | (injection h with h; rw [← h])

/-- Claim C10 witness: with the t flag at its documented default of 20, the
Options returned by get_options still carries a 10-second timeout. -/
theorem C10_timeout_always_ten_seconds_witness :
    getOptions mC10 = Except.ok optC10 ∧
    optC10.timeout = { secs := 10, nanos := 0 } :=
  ⟨rfl, C10_timeout_always_ten_seconds mC10 optC10 rfl⟩

end Rhi
